import Mathlib

/-!
# LearnMate-AI: judging and assessment-session verification

A shallow embedding of the code-judging and assessment-session logic of the
LearnMate-AI repository, together with proofs about it.

Embedded source files:
* `src/types.ts` (data model: `Language`, `SubmissionStatus`, `SubmissionResult`,
  `TestCase`, `Example`, `CodingProblem`, `QuizQuestion`, `TestCaseResult`, `TestConfig`);
* `src/services/judge0Service.ts` (`mockJudge0Response`, `createSubmission`,
  `generateCodeHint`);
* `src/components/CodeEditor.tsx` (the TestBuddy component defined there:
  `handleRunCode`, `handleSubmitCode`, `handleGetHint`, `finishMcq`,
  `renderMcqResults`, `handleFetchCodingProblems`);
* `src/components/TestBuddy.tsx` (`handleStartTest`, `handleSubmitTest`, the
  countdown/auto-submit effects).

Conventions: JavaScript strings are Lean `String`s; `undefined`/optional values
are `Option`; JavaScript numbers appearing in the mock judge are modelled as
`Option Int` with `none` playing the role of `NaN` (the mock's number tokens are
signed integer literals); asynchronous functions are modelled by their resolved
values; React state updates are modelled as explicit state-passing functions.
-/

namespace LearnMate

/-- `Language` from `src/types.ts`: the four supported submission languages. -/
inductive Language where
  | javascript
  | python
  | java
  | c
deriving DecidableEq

/-- `SubmissionStatus` from `src/types.ts`: the judging outcome taxonomy.
Being an inductive type, exactly one tag is active in any value. -/
inductive SubmissionStatus where
  | Accepted
  | WrongAnswer
  | RuntimeError
  | TimeLimitExceeded
  | CompilationError
  | Pending
  | Running
deriving DecidableEq

/-- `SubmissionResult` from `src/types.ts`. Optional fields default to `none`
(absent in the JavaScript object). -/
structure SubmissionResult where
  status : SubmissionStatus
  stdout : Option String := none
  expectedOutput : Option String := none
  stderr : Option String := none
  compile_output : Option String := none
  time : Option String := none
  memory : Option Nat := none
  failedInput : Option String := none
deriving DecidableEq

/-- `TestCase` from `src/types.ts`: a hidden test case. -/
structure TestCase where
  input : String
  output : String
deriving DecidableEq

/-- `Example` from `src/types.ts`: a visible example case. -/
structure Example where
  input : String
  output : String
  explanation : Option String := none
deriving DecidableEq

/-- `CodingProblemDifficulty` from `src/types.ts`. -/
inductive CodingProblemDifficulty where
  | Easy
  | Medium
  | Hard
deriving DecidableEq

/-- The `Record<Language, string>` starter-code mapping of `src/types.ts`,
spelled out as one field per language so equality stays decidable. -/
structure StarterCode where
  javascript : String
  python : String
  java : String
  c : String
deriving DecidableEq

/-- `CodingProblem` from `src/types.ts`. -/
structure CodingProblem where
  id : String
  title : String
  difficulty : CodingProblemDifficulty
  description : String
  constraints : List String
  examples : List Example
  testCases : List TestCase
  starterCode : StarterCode
deriving DecidableEq

/-- The status of one example run (`TestCaseResult.status` in `src/types.ts`). -/
inductive RunStatus where
  | Passed
  | Failed
deriving DecidableEq

/-- `TestCaseResult` from `src/types.ts`: the UI-oriented projection of running
one visible example. -/
structure TestCaseResult where
  input : String
  expectedOutput : String
  userOutput : String
  status : RunStatus
  error : Option String := none
deriving DecidableEq

/-- `QuizQuestion` from `src/types.ts`. -/
structure QuizQuestion where
  questionText : String
  options : List String
  correctAnswer : String
  explanation : String
deriving DecidableEq

/-- `TestConfig` from `src/types.ts`: question count and time limit (minutes). -/
structure TestConfig where
  numQuestions : Nat
  timeLimit : Nat
deriving DecidableEq

/-! ## JavaScript string and number primitives

The mock judge uses `String.prototype.includes`, `trim`, `split(/\s+/)`,
`Number`, array indexing and `||`. Lean's own `String.trim`/`String.split` are
byte-position based and do not reduce inside the kernel, so the same operations
are defined here directly on character lists. -/

/-- `hasPrefixL pat l` is true when `pat` is a prefix of `l`. -/
def hasPrefixL : List Char → List Char → Bool
  | [], _ => true
  | _ :: _, [] => false
  | p :: ps, c :: cs => p = c && hasPrefixL ps cs

/-- `containsSubstrL pat l` is true when `pat` occurs contiguously in `l`. -/
def containsSubstrL (pat : List Char) : List Char → Bool
  | [] => hasPrefixL pat []
  | c :: cs => hasPrefixL pat (c :: cs) || containsSubstrL pat cs

/-- JavaScript `s.includes(pat)`. -/
def containsSubstr (s pat : String) : Bool :=
  containsSubstrL pat.data s.data

/-- JavaScript `s.trim()`: strip leading and trailing whitespace. -/
def jsTrim (s : String) : String :=
  String.mk (((s.data.dropWhile Char.isWhitespace).reverse.dropWhile Char.isWhitespace).reverse)

/-- Splitting helper for `jsSplitWs`: cut at every whitespace character. -/
def splitWsAux : List Char → List Char → List (List Char)
  | [], acc => [acc.reverse]
  | c :: cs, acc =>
    if c.isWhitespace then acc.reverse :: splitWsAux cs []
    else splitWsAux cs (c :: acc)

/-- JavaScript `s.split(/\s+/).filter(Boolean)`: whitespace-separated tokens,
empty tokens dropped (`""` is falsy). -/
def jsSplitWs (s : String) : List String :=
  ((splitWsAux s.data []).map (fun l => String.mk l)).filter (fun t => t ≠ "")

/-- Digits of a numeric token. Returns `none` on a non-digit. -/
def jsParseDigits : List Char → Option Nat → Option Nat
  | [], acc => acc
  | c :: cs, acc =>
    if c.isDigit then
      jsParseDigits cs (some ((acc.getD 0) * 10 + (c.toNat - '0'.toNat)))
    else none

/-- JavaScript `Number(token)` restricted to the signed integer literals the
mock judge's scenarios use; any other token is `NaN`, modelled as `none`. -/
def jsParseNum (t : String) : Option Int :=
  match t.data with
  | '-' :: rest => (jsParseDigits rest none).map (fun n => -(n : Int))
  | '+' :: rest => (jsParseDigits rest none).map (fun n => (n : Int))
  | l => (jsParseDigits l none).map (fun n => (n : Int))

/-- JavaScript `+` on numbers: `NaN` (here `none`) is absorbing. -/
def jsAdd : Option Int → Option Int → Option Int
  | some a, some b => some (a + b)
  | _, _ => none

/-- JavaScript `num.toString()`; `NaN` prints as `"NaN"`. -/
def jsNumToString : Option Int → String
  | some n => toString n
  | none => "NaN"

/-- JavaScript array indexing `l[i]` where a missing element (`undefined`)
behaves like `NaN` under the arithmetic above. -/
def jsIdx (l : List (Option Int)) (i : Nat) : Option Int :=
  (l.get? i).join

/-- JavaScript `a || b` on optional strings: `undefined` and `""` are falsy. -/
def jsOrS : Option String → Option String → Option String
  | some s, b => if s = "" then b else some s
  | none, b => b

/-! ## The Judge: `src/services/judge0Service.ts` -/

/-- `stdin?.split(/\s+/).filter(Boolean).map(Number) || [1, 2]` from
`mockJudge0Response`: when `stdin` is `undefined` the optional chain yields
`undefined` and the fallback `[1, 2]` applies; an empty token list is a truthy
array in JavaScript and is kept. -/
def jsInputs : Option String → List (Option Int)
  | none => [some 1, some 2]
  | some s => (jsSplitWs s).map jsParseNum

/-- `mockJudge0Response` from `src/services/judge0Service.ts`: the mock Judge.
The `try`/`catch` around the arithmetic block is embedded without the `catch`
branch: none of the operations inside the `try` (`split`, `filter`, `map`,
`Number`, `reduce` with an initial value, indexing, `+`, `toString` on a
number) throws in JavaScript, so the branch is unreachable. -/
def mockJudge0Response (sourceCode : String) (stdin expectedOutput : Option String) :
    SubmissionResult :=
  if containsSubstr sourceCode "syntax error" then
    { status := .CompilationError,
      compile_output := some "SyntaxError: Invalid token on line 3" }
  else if containsSubstr sourceCode "throw new Error" || containsSubstr sourceCode "error" then
    { status := .RuntimeError, stderr := some "Error: Something went wrong on line 5." }
  else if containsSubstr sourceCode "while (true)" || containsSubstr sourceCode "infinite loop" then
    { status := .TimeLimitExceeded, time := some "2.01" }
  else
    let inputs := jsInputs stdin
    let correctSum := inputs.foldl jsAdd (some 0)
    let actualOutput :=
      if containsSubstr sourceCode "return a + b" then
        jsNumToString (jsAdd (jsIdx inputs 0) (jsIdx inputs 1))
      else if containsSubstr sourceCode "reduce" then
        jsNumToString correctSum
      else
        "0"
    match expectedOutput with
    | some e =>
      if e ≠ "" ∧ jsTrim actualOutput ≠ jsTrim e then
        { status := .WrongAnswer, stdout := some actualOutput, expectedOutput := some e,
          time := some "0.05", memory := some 15200 }
      else
        { status := .Accepted, stdout := some actualOutput, time := some "0.02",
          memory := some 12000 }
    | none =>
      { status := .Accepted, stdout := some actualOutput, time := some "0.02",
        memory := some 12000 }

/-- `createSubmission` from `src/services/judge0Service.ts`: logs, waits 1.5 s,
then returns `mockJudge0Response(sourceCode, stdin, expectedOutput)`. The
`language` argument is used only in the log line. -/
def createSubmission (language : Language) (sourceCode : String)
    (stdin expectedOutput : Option String) : SubmissionResult :=
  mockJudge0Response sourceCode stdin expectedOutput

/-! ## Submit flow: `handleSubmitCode` in `src/components/CodeEditor.tsx` -/

/-- The single Judge call `await createSubmission(language, code, testCase.input,
testCase.output)` the submit loop makes for one hidden test case. -/
def judgeCase (language : Language) (code : String) (tc : TestCase) : SubmissionResult :=
  createSubmission language code (some tc.input) (some tc.output)

/-- The `for (const testCase of problem.testCases)` loop of `handleSubmitCode`:
sequentially judge each hidden case; on the first non-`Accepted` result return
it augmented with `failedInput := testCase.input`; if every case is `Accepted`
return a fresh `{ status: 'Accepted' }`. The second component counts the Judge
calls made (one per iteration entered). -/
def submitLoop (language : Language) (code : String) :
    List TestCase → SubmissionResult × Nat
  | [] => ({ status := .Accepted }, 0)
  | tc :: rest =>
    let result := judgeCase language code tc
    if result.status ≠ .Accepted then
      ({ result with failedInput := some tc.input }, 1)
    else
      let r := submitLoop language code rest
      (r.1, r.2 + 1)

/-- `handleSubmitCode` from `src/components/CodeEditor.tsx`, restricted to its
verdict: the final `SubmissionResult` stored via `setSubmissionResult`, paired
with the number of Judge calls made. The transient `{ status: 'Running' }`
updates and the `onCodingAttempt` recording do not affect the verdict. -/
def handleSubmitCode (language : Language) (code : String) (problem : CodingProblem) :
    SubmissionResult × Nat :=
  submitLoop language code problem.testCases

/-! ## Run flow: `handleRunCode` in `src/components/CodeEditor.tsx` -/

/-- The per-entry object built by `results.map((res, index) => ...)` in
`handleRunCode`, applied to `res = results[index]` and the example at the same
index. -/
def runEntry (res : SubmissionResult) (ex : Example) : TestCaseResult :=
  { input := ex.input
    expectedOutput := ex.output
    userOutput := (jsOrS (jsOrS res.stdout res.stderr) (some "No output")).getD "No output"
    status := if res.status = .Accepted then .Passed else .Failed
    error := jsOrS res.stderr res.compile_output }

/-- `handleRunCode` from `src/components/CodeEditor.tsx`, restricted to the
result list stored via `setRunResults`: one `createSubmission` per example
(`Promise.all` fan-out, resolved values in example order), then the positional
re-association `results.map((res, index) => ...)` with `problem.examples[index]`,
here expressed by zipping the two equally-long lists. -/
def handleRunCode (language : Language) (code : String) (examples : List Example) :
    List TestCaseResult :=
  let results := examples.map (fun ex =>
    createSubmission language code (some ex.input) (some ex.output))
  (results.zip examples).map (fun p => runEntry p.1 p.2)

/-! ## Hints: `generateCodeHint` in `src/services/judge0Service.ts` and
`handleGetHint` in `src/components/CodeEditor.tsx` -/

/-- The fixed fallback string returned by `generateCodeHint` on failure. -/
def hintFallback : String :=
  "Sorry, I couldn\x27t generate a hint right now. Please try again."

/-- `generateCodeHint` from `src/services/judge0Service.ts`. The external
`ai.models.generateContent` call is represented by its outcome
`advisorResponse`; the function's `catch` maps any failure to the fixed
fallback string, so the function itself never throws. -/
def generateCodeHint (advisorResponse : Except String String) : String :=
  match advisorResponse with
  | .ok text => text
  | .error _ => hintFallback

/-- The two pieces of component state `handleGetHint` can read or write:
the already-computed submission verdict and the hint text. -/
structure SubmitPanelState where
  submissionResult : Option SubmissionResult
  hint : Option String
deriving DecidableEq

/-- `handleGetHint` from `src/components/CodeEditor.tsx`: a no-op unless a
problem is active, no hint is already loading, and a non-`Accepted` submission
result exists; otherwise it stores `generateCodeHint`'s answer in `hint`.
Since `generateCodeHint` never throws (its own `catch` absorbs failures), the
caller's `catch` branch is unreachable. `setSubmissionResult` is never called. -/
def handleGetHint (problem : Option CodingProblem) (isHintLoading : Bool)
    (advisorResponse : Except String String) (s : SubmitPanelState) : SubmitPanelState :=
  match problem with
  | none => s
  | some _ =>
    if isHintLoading then s
    else
      match s.submissionResult with
      | none => s
      | some r =>
        if r.status = .Accepted then s
        else { s with hint := some (generateCodeHint advisorResponse) }

/-! ## MCQ scoring: `finishMcq` / `renderMcqResults` in
`src/components/CodeEditor.tsx` and `handleSubmitTest` in
`src/components/TestBuddy.tsx`

The `userAnswers` record (`Record<number, string>`) is modelled as a function
`Nat → Option String`: `answers i = none` when question `i` was never answered
(`finalAnswers[i]` is `undefined` and key `i` is absent from the record). -/

/-- The score computed by `finishMcq`:
`mcqQuestions.forEach((q, index) => { if (finalAnswers[index] === q.correctAnswer) score++ })`.
This is the value recorded through `onQuizComplete`. -/
def finishMcqScore (mcqQuestions : List QuizQuestion) (finalAnswers : Nat → Option String) :
    Nat :=
  mcqQuestions.enum.countP (fun p => finalAnswers p.1 == some p.2.correctAnswer)

/-- The score computed by `handleSubmitTest` in `src/components/TestBuddy.tsx`,
whose answers live in an array of `string | null`:
`if (userAnswers[i] === questions[i].correctAnswer) score++` for `i` below
`questions.length`; a `null` or out-of-range entry never equals a string. -/
def handleSubmitTestScore (questions : List QuizQuestion)
    (userAnswers : List (Option String)) : Nat :=
  questions.enum.countP (fun p => (userAnswers.get? p.1).join == some p.2.correctAnswer)

/-- JavaScript `Object.values(userAnswers)` for a record whose keys are
question indices below `n`: integer-like keys enumerate in ascending order and
absent keys are skipped, compacting the record into a list. -/
def objectValues (n : Nat) (answers : Nat → Option String) : List String :=
  (List.range n).filterMap answers

/-- The score displayed by `renderMcqResults`:
`Object.values(userAnswers).filter((answer, index) => answer === mcqQuestions[index].correctAnswer).length`.
The filter index ranges over the compacted values list, not over question
indices. -/
def renderMcqScore (mcqQuestions : List QuizQuestion) (userAnswers : Nat → Option String) :
    Nat :=
  (objectValues mcqQuestions.length userAnswers).enum.countP
    (fun p => some p.2 == (mcqQuestions.get? p.1).map QuizQuestion.correctAnswer)

/-! ## Provisioning transitions

`handleStartTest` in `src/components/TestBuddy.tsx` and
`handleFetchCodingProblems` in `src/components/CodeEditor.tsx`. The external
generator calls (`generateMockTest`, `generateCodingProblems`) are represented
by their outcome: `Except.error msg` when the call threw (with the message the
`catch` extracts), `Except.ok items` when it resolved. -/

/-- `TestState` from `src/components/TestBuddy.tsx`. -/
inductive TestState where
  | config
  | loading
  | active
  | results
deriving DecidableEq

/-- The component state `handleStartTest` touches in `src/components/TestBuddy.tsx`. -/
structure MockTestSession where
  testState : TestState
  questions : List QuizQuestion
  userAnswers : List (Option String)
  currentQIndex : Nat
  timeLeft : Nat
  error : Option String
deriving DecidableEq

/-- `handleStartTest` from `src/components/TestBuddy.tsx`, as the net state
update once the provisioning call has settled: an empty vault refuses to start;
a thrown generator call or an empty question list lands in the `catch` (the
code throws "The AI could not generate a test from the provided content." on
`length === 0`), setting the error and returning to `config`; otherwise the
session becomes `active` with blank answers and the clock set to
`timeLimit * 60` seconds. -/
def handleStartTest (learnVaultContent : String) (config : TestConfig)
    (provisioned : Except String (List QuizQuestion)) (s : MockTestSession) :
    MockTestSession :=
  if jsTrim learnVaultContent = "" then
    { s with error := some "Your LearnVault is empty. Please add some notes first." }
  else
    match provisioned with
    | .error msg => { s with error := some msg, testState := .config }
    | .ok [] =>
      { s with
        error := some "The AI could not generate a test from the provided content.",
        testState := .config }
    | .ok qs =>
      { s with
        questions := qs,
        userAnswers := List.replicate qs.length none,
        timeLeft := config.timeLimit * 60,
        currentQIndex := 0,
        testState := .active,
        error := none }

/-- `TestBuddyView` from `src/components/CodeEditor.tsx`. -/
inductive TestBuddyView where
  | initial
  | mcq
  | coding_difficulty
  | coding_workspace
  | mcq_results
deriving DecidableEq

/-- The component state `handleFetchCodingProblems` touches in
`src/components/CodeEditor.tsx`. -/
structure CodingSessionState where
  view : TestBuddyView
  codingProblems : List CodingProblem
  activeCodingProblemIndex : Nat
  isCodingTimerRunning : Bool
  codingDifficulty : Option CodingProblemDifficulty
  error : Option String
deriving DecidableEq

/-- `handleFetchCodingProblems` from `src/components/CodeEditor.tsx`, as the
net state update once the provisioning call has settled: the difficulty is
recorded and the error cleared up front; a thrown generator call sets the error
and leaves the view unchanged; any resolved problem list — empty included —
enters the `coding_workspace` view at index 0 with the coding timer running. -/
def handleFetchCodingProblems (difficulty : CodingProblemDifficulty)
    (provisioned : Except String (List CodingProblem)) (s : CodingSessionState) :
    CodingSessionState :=
  match provisioned with
  | .error msg =>
    { s with codingDifficulty := some difficulty, error := some msg }
  | .ok ps =>
    { s with
      codingDifficulty := some difficulty,
      error := none,
      codingProblems := ps,
      activeCodingProblemIndex := 0,
      view := .coding_workspace,
      isCodingTimerRunning := true }

/-! ## Timers

`src/components/TestBuddy.tsx` keeps its own countdown: one effect decrements
`timeLeft` once per second while `testState === 'active' && timeLeft > 0`, and a
second effect invokes `handleSubmitTest()` (which moves `testState` to
`'results'`) as soon as `testState === 'active' && timeLeft === 0`. -/

/-- The timer-relevant slice of the `src/components/TestBuddy.tsx` state:
`testState`, `timeLeft`, and a count of how many times the auto-submit effect
has invoked `handleSubmitTest`. -/
structure TimerSession where
  testState : TestState
  timeLeft : Nat
  timeoutFires : Nat
deriving DecidableEq

/-- One one-second step of the `src/components/TestBuddy.tsx` countdown: while
`active` with time left, decrement; if the remaining time has just reached
zero the auto-submit effect fires `handleSubmitTest`, moving the state to
`results`. In any non-`active` state the interval is cleared and the
auto-submit guard is false, so the step is the identity. -/
def timerTick (s : TimerSession) : TimerSession :=
  if s.testState = .active ∧ 0 < s.timeLeft then
    if s.timeLeft - 1 = 0 then
      { testState := .results, timeLeft := 0, timeoutFires := s.timeoutFires + 1 }
    else
      { s with timeLeft := s.timeLeft - 1 }
  else s

/-- `n` seconds of the countdown. -/
def timerRun : Nat → TimerSession → TimerSession
  | 0, s => s
  | n + 1, s => timerRun n (timerTick s)

/-- The user pressing "Submit Test" before expiry (`handleSubmitTest`): the
session leaves `active`, which also clears the interval. -/
def submitEarly (s : TimerSession) : TimerSession :=
  { s with testState := .results }

/-- Modelled from the spec: the `Timer` component used by the coding workspace
and MCQ flow in `src/components/CodeEditor.tsx` is imported from `./Timer`,
which is not among the repository's source files. Following §4.5 of the spec:
the timer holds a remaining-seconds counter and a `running` flag. -/
structure SessionTimer where
  running : Bool
  remaining : Nat
  fires : Nat
deriving DecidableEq

/-- Modelled from the spec (§4.5): one one-second tick of the `Timer`
component; ticks down while `running`; when the remaining time reaches zero it
invokes `onTimeout` once (counted in `fires`) and stops itself. -/
def sessionTimerTick (t : SessionTimer) : SessionTimer :=
  if t.running = true ∧ 0 < t.remaining then
    if t.remaining - 1 = 0 then
      { running := false, remaining := 0, fires := t.fires + 1 }
    else
      { t with remaining := t.remaining - 1 }
  else t

/-- Modelled from the spec (§4.5): `n` seconds of the `Timer` component. -/
def sessionTimerRun : Nat → SessionTimer → SessionTimer
  | 0, t => t
  | n + 1, t => sessionTimerRun n (sessionTimerTick t)

/-- Modelled from the spec (§4.5): stopping the timer early clears `running`. -/
def sessionTimerStop (t : SessionTimer) : SessionTimer :=
  { t with running := false }

/-! ## Lemmas about the submit loop -/

/-- When every hidden case is judged `Accepted`, the loop visits all of them
and returns a fresh `Accepted` verdict. -/
theorem submitLoop_all_accepted (language : Language) (code : String) :
    ∀ (tcs : List TestCase),
    (∀ tc ∈ tcs, (judgeCase language code tc).status = .Accepted) →
    submitLoop language code tcs = ({ status := .Accepted }, tcs.length) := by
  intro tcs h
  induction tcs with
  | nil => rfl
  | cons tc rest ih =>
    have htc : (judgeCase language code tc).status = .Accepted :=
      h tc (List.mem_cons_self _ _)
    have hrest := ih (fun t ht => h t (List.mem_cons_of_mem _ ht))
    simp [submitLoop, htc, hrest]

/-- When the first non-`Accepted` judgement is at 0-based index `k`, the loop
stops there: it returns that judgement augmented with the failing input and has
made exactly `k + 1` Judge calls. -/
theorem submitLoop_first_failure (language : Language) (code : String) :
    ∀ (tcs : List TestCase) (k : Nat) (hk : k < tcs.length),
    (∀ i (hi : i < k), (judgeCase language code tcs[i]).status = .Accepted) →
    (judgeCase language code tcs[k]).status ≠ .Accepted →
    submitLoop language code tcs =
      ({ judgeCase language code tcs[k] with failedInput := some tcs[k].input }, k + 1) := by
  intro tcs
  induction tcs with
  | nil => intro k hk; exact absurd hk (by simp)
  | cons tc rest ih =>
    intro k hk hacc hfail
    cases k with
    | zero =>
      simp only [List.getElem_cons_zero] at hfail ⊢
      simp [submitLoop, hfail]
    | succ j =>
      have h0 : (judgeCase language code tc).status = .Accepted := by
        have := hacc 0 (Nat.succ_pos j)
        simpa using this
      have hj : j < rest.length := by simpa using Nat.lt_of_succ_lt_succ hk
      have hacc' : ∀ i (hi : i < j), (judgeCase language code rest[i]).status = .Accepted := by
        intro i hi
        have := hacc (i + 1) (Nat.succ_lt_succ hi)
        simpa using this
      have hfail' : (judgeCase language code rest[j]).status ≠ .Accepted := by
        simpa using hfail
      have hrest := ih j hj hacc' hfail'
      simp only [List.getElem_cons_succ]
      simp [submitLoop, h0, hrest]

/-- C1: for every problem, submitting code evaluates the hidden test cases
strictly in order, one Judge call at a time; at the first case whose outcome is
not `Accepted` it stops and returns that outcome augmented with the failing
case's input after exactly `k + 1` Judge calls (`k` the 0-based index of the
first failure); if every case is `Accepted` it returns an `Accepted` outcome
after exactly `testCases.length` Judge calls. -/
theorem submit_stops_at_first_failure (language : Language) (code : String)
    (problem : CodingProblem) :
    (∀ (k : Nat) (hk : k < problem.testCases.length),
      (∀ i (hi : i < k),
        (judgeCase language code problem.testCases[i]).status = .Accepted) →
      (judgeCase language code problem.testCases[k]).status ≠ .Accepted →
      handleSubmitCode language code problem =
        ({ judgeCase language code problem.testCases[k] with
           failedInput := some problem.testCases[k].input }, k + 1)) ∧
    ((∀ tc ∈ problem.testCases, (judgeCase language code tc).status = .Accepted) →
      handleSubmitCode language code problem =
        ({ status := .Accepted }, problem.testCases.length)) := by
  constructor
  · intro k hk hacc hfail
    exact submitLoop_first_failure language code problem.testCases k hk hacc hfail
  · intro h
    exact submitLoop_all_accepted language code problem.testCases h

/-- A concrete "add two numbers" problem whose second hidden case expects a
wrong answer, so code computing `a + b` first passes case 0 and then fails
case 1. -/
def sumProblem : CodingProblem :=
  { id := "sum-two"
    title := "Sum Two Numbers"
    difficulty := .Easy
    description := "Read two numbers and print their sum."
    constraints := []
    examples := [{ input := "2 3", output := "5" }]
    testCases := [{ input := "2 3", output := "5" }, { input := "1 2", output := "4" },
                  { input := "0 0", output := "0" }]
    starterCode := { javascript := "", python := "", java := "", c := "" } }

/-- Witness for C1: on `sumProblem`, code containing `return a + b` passes
hidden case 0 and fails hidden case 1, so the submit flow returns the
`WrongAnswer` judgement of case 1 augmented with its input after exactly 2
Judge calls. -/
theorem submit_stops_at_first_failure_witness :
    handleSubmitCode Language.javascript "return a + b" sumProblem =
      ({ status := .WrongAnswer, stdout := some "3", expectedOutput := some "4",
         time := some "0.05", memory := some 15200, failedInput := some "1 2" }, 2) := by
  have h := (submit_stops_at_first_failure Language.javascript "return a + b" sumProblem).1
    1 (by decide) (by decide) (by decide)
  rw [h]
  decide

/-- C9: the Judge is deterministic — two invocations of `createSubmission` on
the same `(language, sourceCode, stdin, expectedOutput)` tuple yield outcomes
with the same status tag. -/
theorem judge_deterministic (language : Language) (sourceCode : String)
    (stdin expectedOutput : Option String) (r1 r2 : SubmissionResult)
    (h1 : r1 = createSubmission language sourceCode stdin expectedOutput)
    (h2 : r2 = createSubmission language sourceCode stdin expectedOutput) :
    r1.status = r2.status := by
  rw [h1, h2]

/-- Witness for C9 at a concrete tuple. -/
theorem judge_deterministic_witness :
    (createSubmission Language.python "zzz" (some "1") (some "0")).status =
      (createSubmission Language.python "zzz" (some "1") (some "0")).status :=
  judge_deterministic Language.python "zzz" (some "1") (some "0") _ _ rfl rfl

/-- C10: the Judge's result is independent of the language argument —
`createSubmission` only logs the language and hands the remaining arguments to
`mockJudge0Response`. -/
theorem judge_language_independent (l1 l2 : Language) (sourceCode : String)
    (stdin expectedOutput : Option String) :
    createSubmission l1 sourceCode stdin expectedOutput =
      createSubmission l2 sourceCode stdin expectedOutput := rfl

/-! ## Lemmas about the run flow -/

/-- Zipping a mapped list with the original and mapping the pairs is a single
pointwise map. -/
theorem zip_map_self {α β γ : Type} (f : α → β) (g : β × α → γ) :
    ∀ (l : List α), ((l.map f).zip l).map g = l.map (fun a => g (f a, a))
  | [] => rfl
  | a :: l => by simp [zip_map_self f g l]

/-- `handleRunCode` builds each `TestCaseResult` from the Judge's answer on the
example at the same position. -/
theorem handleRunCode_eq_map (language : Language) (code : String)
    (examples : List Example) :
    handleRunCode language code examples =
      examples.map (fun ex =>
        runEntry (createSubmission language code (some ex.input) (some ex.output)) ex) := by
  simp only [handleRunCode]
  exact zip_map_self _ _ examples

/-- C3: running code against a problem's examples returns one result per
example, in example order: the list has length `examples.length` and its `i`-th
entry is built from the Judge's answer on the `i`-th example alone — every
example is reported regardless of which examples pass or fail, with no early
exit. -/
theorem run_reports_every_example (language : Language) (code : String)
    (problem : CodingProblem) :
    (handleRunCode language code problem.examples).length = problem.examples.length ∧
    (∀ (i : Nat) (hi : i < problem.examples.length),
      (handleRunCode language code problem.examples).get? i =
        some (runEntry
          (createSubmission language code (some problem.examples[i].input)
            (some problem.examples[i].output))
          problem.examples[i])) := by
  constructor
  · rw [handleRunCode_eq_map]
    exact List.length_map _ _
  · intro i hi
    rw [handleRunCode_eq_map, List.get?_map, List.get?_eq_get hi]
    rfl

/-- Witness for C3: on `sumProblem`, which has one visible example, the run
flow reports exactly that example's result. -/
theorem run_reports_every_example_witness :
    (handleRunCode Language.javascript "return a + b" sumProblem.examples).length = 1 ∧
    (handleRunCode Language.javascript "return a + b" sumProblem.examples).get? 0 =
      some { input := "2 3", expectedOutput := "5", userOutput := "5",
             status := .Passed, error := none } := by
  have h := run_reports_every_example Language.javascript "return a + b" sumProblem
  refine ⟨h.1, ?_⟩
  rw [h.2 0 (by decide)]
  decide

/-! ## The Judge's precedence chain -/

/-- Counterexample to C2 as stated: with a provided but empty
`expectedOutput`, the Judge returns `Accepted` even though the produced
`stdout` does not trim-equal the expected output — JavaScript treats `""` as
falsy, so the comparison `expectedOutput && ...` is skipped. -/
theorem judge_accepts_empty_expected :
    (mockJudge0Response "x" (some "1 2") (some "")).status = SubmissionStatus.Accepted ∧
    jsTrim ((mockJudge0Response "x" (some "1 2") (some "")).stdout.getD "") ≠ jsTrim "" := by
  decide

/-- C2 (amended): the Judge classifies by the strict precedence chain
compilation check → runtime check → time-limit check → output comparison; in
the comparison stage, when `expectedOutput` is provided and non-empty the
outcome is `Accepted` exactly when `stdout.trim()` equals
`expectedOutput.trim()`, and otherwise `WrongAnswer` with `expectedOutput`
attached (`failedInput` is not attached by the Judge — the submit flow adds
it); when `expectedOutput` is empty the Judge returns `Accepted` without
comparing. -/
theorem judge_precedence_chain (src : String) (stdin : Option String) (e : String) :
    (containsSubstr src "syntax error" = true →
      (mockJudge0Response src stdin (some e)).status = .CompilationError) ∧
    (containsSubstr src "syntax error" = false →
      (containsSubstr src "throw new Error" || containsSubstr src "error") = true →
      (mockJudge0Response src stdin (some e)).status = .RuntimeError) ∧
    (containsSubstr src "syntax error" = false →
      (containsSubstr src "throw new Error" || containsSubstr src "error") = false →
      (containsSubstr src "while (true)" || containsSubstr src "infinite loop") = true →
      (mockJudge0Response src stdin (some e)).status = .TimeLimitExceeded) ∧
    (containsSubstr src "syntax error" = false →
      (containsSubstr src "throw new Error" || containsSubstr src "error") = false →
      (containsSubstr src "while (true)" || containsSubstr src "infinite loop") = false →
      e ≠ "" →
      (((mockJudge0Response src stdin (some e)).status = .Accepted ↔
        jsTrim ((mockJudge0Response src stdin (some e)).stdout.getD "") = jsTrim e) ∧
       ((mockJudge0Response src stdin (some e)).status ≠ .Accepted →
        (mockJudge0Response src stdin (some e)).status = .WrongAnswer ∧
        (mockJudge0Response src stdin (some e)).expectedOutput = some e ∧
        (mockJudge0Response src stdin (some e)).failedInput = none))) ∧
    (containsSubstr src "syntax error" = false →
      (containsSubstr src "throw new Error" || containsSubstr src "error") = false →
      (containsSubstr src "while (true)" || containsSubstr src "infinite loop") = false →
      e = "" →
      (mockJudge0Response src stdin (some e)).status = .Accepted) := by
  refine ⟨?_, ?_, ?_, ?_, ?_⟩
  · intro h1
    simp [mockJudge0Response, h1]
  · intro h1 h2
    simp [mockJudge0Response, h1, h2]
  · intro h1 h2 h3
    simp [mockJudge0Response, h1, h2, h3]
  · intro h1 h2 h3 he
    by_cases htrim :
        jsTrim (if containsSubstr src "return a + b" then
          jsNumToString (jsAdd (jsIdx (jsInputs stdin) 0) (jsIdx (jsInputs stdin) 1))
        else if containsSubstr src "reduce" then
          jsNumToString ((jsInputs stdin).foldl jsAdd (some 0))
        else "0") = jsTrim e
    · constructor
      · simp [mockJudge0Response, h1, h2, h3, he, htrim]
      · intro hst
        exact absurd (by simp [mockJudge0Response, h1, h2, h3, he, htrim]) hst
    · constructor
      · simp [mockJudge0Response, h1, h2, h3, he, htrim]
      · intro hst
        simp [mockJudge0Response, h1, h2, h3, he, htrim]
  · intro h1 h2 h3 he
    simp [mockJudge0Response, h1, h2, h3, he]

/-- Witness for C2 (amended) at a concrete non-empty expected output: code
containing `return a + b` on stdin `"1 2"` prints `3`, which trim-differs from
`"4"`, so the Judge returns `WrongAnswer` with `expectedOutput` attached and no
`failedInput`. -/
theorem judge_precedence_chain_witness :
    (mockJudge0Response "return a + b" (some "1 2") (some "4")).status =
      SubmissionStatus.WrongAnswer ∧
    (mockJudge0Response "return a + b" (some "1 2") (some "4")).expectedOutput = some "4" ∧
    (mockJudge0Response "return a + b" (some "1 2") (some "4")).failedInput = none := by
  have h := ((judge_precedence_chain "return a + b" (some "1 2") "4").2.2.2.1
    (by decide) (by decide) (by decide) (by decide)).2 (by decide)
  exact h

/-! ## MCQ scoring: recorded versus displayed score -/

/-- A two-question quiz. -/
def twoQuestions : List QuizQuestion :=
  [{ questionText := "q0", options := ["A", "B"], correctAnswer := "A", explanation := "" },
   { questionText := "q1", options := ["A", "B"], correctAnswer := "B", explanation := "" }]

/-- A partial answers record: only question 1 answered, correctly. This is the
state a timer-forced `finishMcq(userAnswers)` sees when the user skipped
question 0. -/
def partialAnswers : Nat → Option String :=
  fun i => if i = 1 then some "B" else none

/-- C4: evaluation at the failing input. The recorded score (`finishMcq`, and
equally `handleSubmitTest` on the array representation) counts exactly the
indices whose answer matches that question's `correctAnswer` and treats
unanswered items as incorrect, giving 1 of 2 here; but the results screen
(`renderMcqResults`) recomputes the score from `Object.values(userAnswers)`,
whose compaction re-aligns the single answer against question 0, displaying 0.
The displayed score differs from the recorded score, refuting the claim that
the same value is reported and displayed. -/
theorem mcq_displayed_score_mismatch :
    finishMcqScore twoQuestions partialAnswers = 1 ∧
    handleSubmitTestScore twoQuestions [none, some "B"] = 1 ∧
    renderMcqScore twoQuestions partialAnswers = 0 := by
  decide

/-! ## Outcome field population -/

/-- Field population for every Judge outcome: the Judge never attaches
`failedInput`, and it attaches `expectedOutput` exactly on `WrongAnswer`. -/
theorem mockJudge0Response_fields (src : String) (stdin expectedOutput : Option String) :
    (mockJudge0Response src stdin expectedOutput).failedInput = none ∧
    ((mockJudge0Response src stdin expectedOutput).expectedOutput.isSome = true ↔
      (mockJudge0Response src stdin expectedOutput).status = .WrongAnswer) := by
  unfold mockJudge0Response
  split
  · simp
  · split
    · simp
    · split
      · simp
      · cases expectedOutput with
        | none => simp
        | some e =>
          by_cases hc : e ≠ "" ∧
              jsTrim (if containsSubstr src "return a + b" then
                jsNumToString (jsAdd (jsIdx (jsInputs stdin) 0) (jsIdx (jsInputs stdin) 1))
              else if containsSubstr src "reduce" then
                jsNumToString ((jsInputs stdin).foldl jsAdd (some 0))
              else "0") ≠ jsTrim e
          · simp [hc]
          · simp [hc]

/-- Field population along the submit loop: `expectedOutput` is present exactly
on a `WrongAnswer` verdict, and `failedInput` is present exactly on a
non-`Accepted` verdict. -/
theorem submitLoop_fields (language : Language) (code : String) :
    ∀ (tcs : List TestCase),
    ((submitLoop language code tcs).1.expectedOutput.isSome = true ↔
      (submitLoop language code tcs).1.status = .WrongAnswer) ∧
    ((submitLoop language code tcs).1.failedInput.isSome = true ↔
      ¬ (submitLoop language code tcs).1.status = .Accepted) := by
  intro tcs
  induction tcs with
  | nil => simp [submitLoop]
  | cons tc rest ih =>
    by_cases h : (judgeCase language code tc).status = .Accepted
    · simpa [submitLoop, h] using ih
    · have h' : ¬ (mockJudge0Response code (some tc.input) (some tc.output)).status =
          .Accepted := by
        simpa [judgeCase, createSubmission] using h
      have hf := mockJudge0Response_fields code (some tc.input) (some tc.output)
      constructor
      · simp [submitLoop, judgeCase, createSubmission, h', hf.2]
      · simp [submitLoop, judgeCase, createSubmission, h']

/-- Counterexample to C5 as stated: submitting code whose source contains
`error` makes the Judge answer `Runtime Error` on the first hidden case, and
the submit flow attaches that case's input as `failedInput` to this
non-`WrongAnswer` outcome. -/
theorem failed_input_on_runtime_error :
    (handleSubmitCode Language.javascript "error" sumProblem).1.status =
      SubmissionStatus.RuntimeError ∧
    (handleSubmitCode Language.javascript "error" sumProblem).1.failedInput =
      some "2 3" := by
  decide

/-- C5 (amended): in every outcome produced by the Judge, exactly one status
tag is active (the status is a closed sum type), `failedInput` is never
populated and `expectedOutput` is populated exactly when the tag is
`WrongAnswer`; in every outcome produced by the submit flow, `expectedOutput`
is populated exactly when the tag is `WrongAnswer`, while `failedInput` is
populated exactly when the tag is not `Accepted` — including `RuntimeError`,
`TimeLimitExceeded` and `CompilationError` outcomes. -/
theorem outcome_field_population :
    (∀ (src : String) (stdin expectedOutput : Option String),
      (mockJudge0Response src stdin expectedOutput).failedInput = none ∧
      ((mockJudge0Response src stdin expectedOutput).expectedOutput.isSome = true ↔
        (mockJudge0Response src stdin expectedOutput).status = .WrongAnswer)) ∧
    (∀ (language : Language) (code : String) (problem : CodingProblem),
      ((handleSubmitCode language code problem).1.expectedOutput.isSome = true ↔
        (handleSubmitCode language code problem).1.status = .WrongAnswer) ∧
      ((handleSubmitCode language code problem).1.failedInput.isSome = true ↔
        ¬ (handleSubmitCode language code problem).1.status = .Accepted)) := by
  constructor
  · exact mockJudge0Response_fields
  · intro language code problem
    exact submitLoop_fields language code problem.testCases

/-- Witness for C5 (amended) at a concrete submission: an all-accepted run has
no `expectedOutput` and no `failedInput`. -/
theorem outcome_field_population_witness :
    ((handleSubmitCode Language.javascript "reduce" sumProblem).1.expectedOutput.isSome =
      true ↔
      (handleSubmitCode Language.javascript "reduce" sumProblem).1.status =
        SubmissionStatus.WrongAnswer) ∧
    ((handleSubmitCode Language.javascript "reduce" sumProblem).1.failedInput.isSome =
      true ↔
      ¬ (handleSubmitCode Language.javascript "reduce" sumProblem).1.status =
        SubmissionStatus.Accepted) :=
  outcome_field_population.2 Language.javascript "reduce" sumProblem

/-! ## Provisioning transitions -/

/-- The coding-session state the user is in when choosing a difficulty. -/
def codingSessionInit : CodingSessionState :=
  { view := .coding_difficulty
    codingProblems := []
    activeCodingProblemIndex := 0
    isCodingTimerRunning := false
    codingDifficulty := none
    error := none }

/-- Counterexample to C6 as stated: when the coding-problem provisioner
resolves with an empty list, `handleFetchCodingProblems` enters the active
`coding_workspace` view with zero problems and the session timer running — no
`Error` transition happens. -/
theorem empty_problem_list_enters_workspace :
    (handleFetchCodingProblems .Easy (Except.ok []) codingSessionInit).view =
      TestBuddyView.coding_workspace ∧
    (handleFetchCodingProblems .Easy (Except.ok []) codingSessionInit).codingProblems = [] ∧
    (handleFetchCodingProblems .Easy (Except.ok []) codingSessionInit).isCodingTimerRunning =
      true ∧
    (handleFetchCodingProblems .Easy (Except.ok []) codingSessionInit).error = none := by
  decide

/-- C6 (amended): for MCQ mock-test provisioning (`handleStartTest`), a failed
provisioner call or an empty question list takes the error transition (error
message set, state back to `config`) and only a non-empty list moves the
session to `active` with the clock set to `timeLimit * 60`; for coding
provisioning (`handleFetchCodingProblems`), a failed call sets the error and
leaves the view unchanged, but every resolved problem list — the empty list
included — moves the session to the active `coding_workspace` with the timer
running, so an active state with zero items is reachable. -/
theorem provisioning_transitions (vault : String) (config : TestConfig)
    (s : MockTestSession) (t : CodingSessionState) (hv : jsTrim vault ≠ "") :
    (∀ msg, (handleStartTest vault config (Except.error msg) s).testState = .config ∧
      (handleStartTest vault config (Except.error msg) s).error = some msg) ∧
    ((handleStartTest vault config (Except.ok []) s).testState = .config ∧
      (handleStartTest vault config (Except.ok []) s).error ≠ none) ∧
    (∀ q qs, (handleStartTest vault config (Except.ok (q :: qs)) s).testState = .active ∧
      (handleStartTest vault config (Except.ok (q :: qs)) s).questions = q :: qs ∧
      (handleStartTest vault config (Except.ok (q :: qs)) s).timeLeft =
        config.timeLimit * 60 ∧
      (handleStartTest vault config (Except.ok (q :: qs)) s).error = none) ∧
    (∀ d msg, (handleFetchCodingProblems d (Except.error msg) t).view = t.view ∧
      (handleFetchCodingProblems d (Except.error msg) t).error = some msg ∧
      (handleFetchCodingProblems d (Except.error msg) t).isCodingTimerRunning =
        t.isCodingTimerRunning) ∧
    (∀ d ps, (handleFetchCodingProblems d (Except.ok ps) t).view = .coding_workspace ∧
      (handleFetchCodingProblems d (Except.ok ps) t).codingProblems = ps ∧
      (handleFetchCodingProblems d (Except.ok ps) t).isCodingTimerRunning = true) := by
  refine ⟨?_, ?_, ?_, ?_, ?_⟩
  · intro msg
    constructor <;> simp [handleStartTest, hv]
  · constructor <;> simp [handleStartTest, hv]
  · intro q qs
    refine ⟨?_, ?_, ?_, ?_⟩ <;> simp [handleStartTest, hv]
  · intro d msg
    refine ⟨?_, ?_, ?_⟩ <;> simp [handleFetchCodingProblems]
  · intro d ps
    refine ⟨?_, ?_, ?_⟩ <;> simp [handleFetchCodingProblems]

/-- The MCQ mock-test state on the configuration screen. -/
def mockTestInit : MockTestSession :=
  { testState := .config
    questions := []
    userAnswers := []
    currentQIndex := 0
    timeLeft := 0
    error := none }

/-- Witness for C6 (amended): with a non-empty vault, a provisioner failure on
the MCQ flow lands back in `config` with the error message set. -/
theorem provisioning_transitions_witness :
    (handleStartTest "notes" { numQuestions := 5, timeLimit := 10 }
      (Except.error "boom") mockTestInit).testState = TestState.config ∧
    (handleStartTest "notes" { numQuestions := 5, timeLimit := 10 }
      (Except.error "boom") mockTestInit).error = some "boom" :=
  (provisioning_transitions "notes" { numQuestions := 5, timeLimit := 10 }
    mockTestInit codingSessionInit (by decide)).1 "boom"

/-! ## Hints never disturb the verdict -/

/-- C7: a hint request never changes the already-computed submission verdict —
`handleGetHint` leaves `submissionResult` untouched whether the HintAdvisor
succeeds or fails — and when the HintAdvisor fails after a terminal
non-`Accepted` verdict, the stored hint is the generic fallback string. -/
theorem hint_failure_is_isolated (p : CodingProblem) (b : Bool)
    (advisorResponse : Except String String) (s : SubmitPanelState) :
    ((handleGetHint (some p) b advisorResponse s).submissionResult = s.submissionResult ∧
     (handleGetHint none b advisorResponse s).submissionResult = s.submissionResult) ∧
    (∀ msg r, advisorResponse = Except.error msg → s.submissionResult = some r →
      r.status ≠ SubmissionStatus.Accepted →
      (handleGetHint (some p) false advisorResponse s).hint = some hintFallback) := by
  constructor
  · constructor
    · unfold handleGetHint
      cases b with
      | true => rfl
      | false =>
        cases hs : s.submissionResult with
        | none => simp [hs]
        | some r =>
          by_cases hr : r.status = .Accepted
          · simp [hr, hs]
          · simp [hr, hs]
    · rfl
  · intro msg r ha hs hr
    simp [handleGetHint, hs, hr, ha, generateCodeHint]

/-- Witness for C7: with a `WrongAnswer` verdict stored and a failing
HintAdvisor, the verdict is unchanged and the hint is the fallback string. -/
theorem hint_failure_is_isolated_witness :
    (handleGetHint (some sumProblem) false (Except.error "offline")
      { submissionResult := some { status := .WrongAnswer }, hint := none }).submissionResult =
      some { status := .WrongAnswer } ∧
    (handleGetHint (some sumProblem) false (Except.error "offline")
      { submissionResult := some { status := .WrongAnswer }, hint := none }).hint =
      some hintFallback := by
  have h := hint_failure_is_isolated sumProblem false (Except.error "offline")
    { submissionResult := some { status := .WrongAnswer }, hint := none }
  exact ⟨h.1.1, h.2 "offline" { status := .WrongAnswer } rfl rfl (by decide)⟩

/-! ## Timer lemmas -/

/-- A tick in any non-`active` state is a no-op: the interval is cleared and
the auto-submit guard is false. -/
theorem timerTick_frozen (s : TimerSession) (h : s.testState ≠ .active) :
    timerTick s = s := by
  unfold timerTick
  rw [if_neg]
  rintro ⟨h1, -⟩
  exact h h1

/-- Any number of ticks in a non-`active` state is a no-op. -/
theorem timerRun_frozen (n : Nat) (s : TimerSession) (h : s.testState ≠ .active) :
    timerRun n s = s := by
  induction n with
  | zero => rfl
  | succ n ih =>
    rw [timerRun, timerTick_frozen s h]
    exact ih

/-- Running the countdown from an `active` state with `T > 0` seconds left:
before `T` ticks have elapsed it is still counting down with no fire; from the
`T`-th tick on it has fired exactly once and sits in `results`. -/
theorem timerRun_active (c : Nat) :
    ∀ (n T : Nat), 0 < T →
    timerRun n { testState := .active, timeLeft := T, timeoutFires := c } =
      (if T ≤ n then { testState := .results, timeLeft := 0, timeoutFires := c + 1 }
       else { testState := .active, timeLeft := T - n, timeoutFires := c }) := by
  intro n
  induction n with
  | zero =>
    intro T hT
    rw [if_neg (by omega)]
    simp [timerRun]
  | succ n ih =>
    intro T hT
    rw [timerRun]
    by_cases hT1 : T = 1
    · subst hT1
      have htick : timerTick { testState := .active, timeLeft := 1, timeoutFires := c } =
          { testState := .results, timeLeft := 0, timeoutFires := c + 1 } := by
        simp [timerTick]
      rw [htick,
        timerRun_frozen n { testState := .results, timeLeft := 0, timeoutFires := c + 1 }
          (by simp),
        if_pos (by omega)]
    · have hT2 : T - 1 ≠ 0 := by omega
      have htick : timerTick { testState := .active, timeLeft := T, timeoutFires := c } =
          { testState := .active, timeLeft := T - 1, timeoutFires := c } := by
        simp [timerTick, hT, hT2]
      rw [htick, ih (T - 1) (by omega)]
      by_cases hle : T ≤ n + 1
      · rw [if_pos (by omega), if_pos hle]
      · rw [if_neg (by omega), if_neg hle]
        congr 1
        omega

/-- Modelled from the spec (§4.5): a `Timer` tick with `running` cleared is a
no-op. -/
theorem sessionTimerTick_stopped (t : SessionTimer) (h : t.running = false) :
    sessionTimerTick t = t := by
  unfold sessionTimerTick
  rw [if_neg]
  rintro ⟨h1, -⟩
  rw [h] at h1
  exact Bool.false_ne_true h1

/-- Modelled from the spec (§4.5): any number of `Timer` ticks with `running`
cleared is a no-op. -/
theorem sessionTimerRun_stopped (n : Nat) (t : SessionTimer) (h : t.running = false) :
    sessionTimerRun n t = t := by
  induction n with
  | zero => rfl
  | succ n ih =>
    rw [sessionTimerRun, sessionTimerTick_stopped t h]
    exact ih

/-- Modelled from the spec (§4.5): running the `Timer` from a running state
with `T > 0` seconds left fires exactly once, at the `T`-th tick, after which
it has stopped itself. -/
theorem sessionTimerRun_running (c : Nat) :
    ∀ (n T : Nat), 0 < T →
    sessionTimerRun n { running := true, remaining := T, fires := c } =
      (if T ≤ n then { running := false, remaining := 0, fires := c + 1 }
       else { running := true, remaining := T - n, fires := c }) := by
  intro n
  induction n with
  | zero =>
    intro T hT
    rw [if_neg (by omega)]
    simp [sessionTimerRun]
  | succ n ih =>
    intro T hT
    rw [sessionTimerRun]
    by_cases hT1 : T = 1
    · subst hT1
      have htick : sessionTimerTick { running := true, remaining := 1, fires := c } =
          { running := false, remaining := 0, fires := c + 1 } := by
        simp [sessionTimerTick]
      rw [htick,
        sessionTimerRun_stopped n { running := false, remaining := 0, fires := c + 1 } rfl,
        if_pos (by omega)]
    · have hT2 : T - 1 ≠ 0 := by omega
      have htick : sessionTimerTick { running := true, remaining := T, fires := c } =
          { running := true, remaining := T - 1, fires := c } := by
        simp [sessionTimerTick, hT, hT2]
      rw [htick, ih (T - 1) (by omega)]
      by_cases hle : T ≤ n + 1
      · rw [if_pos (by omega), if_pos hle]
      · rw [if_neg (by omega), if_neg hle]
        congr 1
        omega

/-- C8: for a session run under a timer, the timeout callback fires exactly
once — at the tick where remaining time reaches zero while the session is
still active — and never fires in a state that has left `active` or after the
timer was stopped early. Covers both the in-source countdown of
`src/components/TestBuddy.tsx` (`timerRun`) and, modelled from the spec, the
`Timer` component used by `src/components/CodeEditor.tsx` (`sessionTimerRun`). -/
theorem timer_fires_exactly_once (T n : Nat) (hT : 0 < T) (s : TimerSession)
    (t : SessionTimer) :
    ((timerRun n { testState := .active, timeLeft := T, timeoutFires := 0 }).timeoutFires =
      if T ≤ n then 1 else 0) ∧
    (s.testState ≠ .active → timerTick s = s) ∧
    ((timerRun n (submitEarly s)).timeoutFires = s.timeoutFires) ∧
    ((sessionTimerRun n { running := true, remaining := T, fires := 0 }).fires =
      if T ≤ n then 1 else 0) ∧
    (t.running = false → sessionTimerTick t = t) ∧
    ((sessionTimerRun n (sessionTimerStop t)).fires = t.fires) := by
  refine ⟨?_, ?_, ?_, ?_, ?_, ?_⟩
  · rw [timerRun_active 0 n T hT]
    by_cases hle : T ≤ n
    · rw [if_pos hle, if_pos hle]
    · rw [if_neg hle, if_neg hle]
  · exact timerTick_frozen s
  · rw [timerRun_frozen n (submitEarly s) (by simp [submitEarly])]
    rfl
  · rw [sessionTimerRun_running 0 n T hT]
    by_cases hle : T ≤ n
    · rw [if_pos hle, if_pos hle]
    · rw [if_neg hle, if_neg hle]
  · exact sessionTimerTick_stopped t
  · rw [sessionTimerRun_stopped n (sessionTimerStop t) rfl]
    rfl

/-- Witness for C8: a 2-second timer observed for 5 ticks has fired exactly
once, in both timer models. -/
theorem timer_fires_exactly_once_witness :
    (timerRun 5 { testState := .active, timeLeft := 2, timeoutFires := 0 }).timeoutFires =
      1 ∧
    (sessionTimerRun 5 { running := true, remaining := 2, fires := 0 }).fires = 1 := by
  have h := timer_fires_exactly_once 2 5 (by decide)
    { testState := .results, timeLeft := 0, timeoutFires := 0 }
    { running := false, remaining := 0, fires := 0 }
  exact ⟨by simpa using h.1, by simpa using h.2.2.2.1⟩

end LearnMate
